import Mathlib

/-!
Shallow embedding of the CityWalker sample-construction pipeline
(`src/data/citywalk_dataset.py` and `src/data/urbannav_dataset.py`)
and proofs about it.  Machine floats are modelled by exact rationals;
a `NaN` component of a loaded pose-log row is modelled by `none`.
-/

/-- One numeric component of a loaded pose-log row; `none` models `NaN`. -/
abbrev Coord := Option ℚ

/-- One row of a loaded pose log (`np.loadtxt` output row). -/
abbrev Row := List Coord

/-- `np.isnan` on one component. -/
def isNanCoord (v : Coord) : Bool := v.isNone

/-- `np.isnan(pose).any(axis=1)` for a single row. -/
def rowHasNan (r : Row) : Bool := r.any isNanCoord

/-- `numpy.argmin` over a Boolean vector: the index of the first occurrence of
the minimal value (`False < True`); `0` when all entries are equal.
(`citywalk_dataset.py` line 77 applies this to the per-row NaN mask.) -/
def argminBool (l : List Bool) : ℕ :=
  match l.findIdx? (fun b => !b) with
  | some i => i
  | none => 0

/-- `citywalk_dataset.py` lines 75-78: compute the per-row NaN mask and, when
any row has a NaN, truncate with `pose[:np.argmin(pose_nan)]`. -/
def truncateNaN (rows : List Row) : List Row :=
  let poseNan := rows.map rowHasNan
  if poseNan.any id then rows.take (argminBool poseNan) else rows

/-- Modelled from the spec (for comparison with `truncateNaN`): "on the first
row containing any NaN component, truncate the sequence to all rows strictly
before it", i.e. keep exactly the NaN-free prefix. -/
def truncateNaNSpec (rows : List Row) : List Row :=
  rows.takeWhile (fun r => !rowHasNan r)

/-- `citywalk_dataset.py` line 74: `np.loadtxt(f)[::max(1, pose_fps // target_fps), 1:]`,
row decimation by an integer stride together with dropping the timestamp column. -/
def decimate (rows : List Row) (stride : ℕ) : List Row :=
  ((rows.enum.filter (fun p => p.1 % stride == 0)).map (fun p => p.2)).map
    (fun r => r.drop 1)

/-- Full per-file pose loading of the video source: decimation followed by
NaN truncation (`citywalk_dataset.py` lines 74-78). -/
def loadPose (raw : List Row) (pose_fps target_fps : ℕ) : List Row :=
  truncateNaN (decimate raw (max 1 (pose_fps / target_fps)))

/-- `max(pose.shape[0] - context_size - max(search_window, wp_length), 0)`
(`citywalk_dataset.py` lines 80-81, `urbannav_dataset.py` lines 131-132);
over ℕ the truncated subtraction is exactly the clamp to `0`. -/
def usableCount (numPoses ctx sw wp : ℕ) : ℕ :=
  numPoses - (ctx + max sw wp)

/-- Pose loading plus usable-count filtering of the video source
(`citywalk_dataset.py` lines 70-87): each retained sequence is paired with its
usable count, and sequences whose count is `0` are removed. -/
def citywalkLoad (raws : List (List Row)) (pose_fps target_fps ctx sw wp : ℕ) :
    List (List Row × ℕ) :=
  let pairs := raws.map (fun r =>
    let p := loadPose r pose_fps target_fps
    (p, usableCount p.length ctx sw wp))
  pairs.filter (fun pr => decide (0 < pr.2))

/-- The `count` consecutive look-up-table entries contributed by one sequence:
`for pose_start in range(count): lut.append((video_idx, pose_start))`. -/
def lutEntries (seqIdx count : ℕ) : List (ℕ × ℕ) :=
  (List.range count).map (fun pose_start => (seqIdx, pose_start))

/-- The index-construction loop (`citywalk_dataset.py` lines 89-99,
`urbannav_dataset.py` lines 144-153), with the running sequence number and the
running `idx_counter` made explicit. -/
def buildIndexAux : List ℕ → ℕ → ℕ → List (ℕ × ℕ) × List (ℕ × ℕ)
  | [], _, _ => ([], [])
  | c :: rest, seqIdx, idxCounter =>
    let here := lutEntries seqIdx c
    let res := buildIndexAux rest (seqIdx + 1) (idxCounter + c)
    (here ++ res.1, (idxCounter, idxCounter + c) :: res.2)

/-- Build the flat look-up table and the per-sequence `(start, end)` ranges. -/
def buildIndex (counts : List ℕ) : List (ℕ × ℕ) × List (ℕ × ℕ) :=
  buildIndexAux counts 0 0

/-- The construction-time fatal check `assert len(self.lut) > 0`
(`citywalk_dataset.py` line 100, `urbannav_dataset.py` line 154):
`true` iff the assertion fires. -/
def constructionFails (counts : List ℕ) : Bool :=
  (buildIndex counts).1.length == 0

/-- `list(range(start_idx, end_idx))` for one per-sequence range. -/
def rangeList (se : ℕ × ℕ) : List ℕ :=
  List.range' se.1 (se.2 - se.1)

/-- `CityWalkSampler.create_indices` (`citywalk_dataset.py` lines 16-23):
walk the per-sequence ranges in order, shuffling each range in train mode.
The result of `random.shuffle` on the `i`-th range is supplied by the
realization `shuffle i`. -/
def create_indices (ranges : List (ℕ × ℕ)) (isTrain : Bool)
    (shuffle : ℕ → List ℕ → List ℕ) : List ℕ :=
  ranges.enum.flatMap (fun p =>
    if isTrain then shuffle p.1 (rangeList p.2) else rangeList p.2)

/-- Python's `random.randint lo hi`: uniform over the integers `[lo, hi]`,
`ValueError` (modelled `none`) when `hi < lo`.  The uniform random source is
the parameter `c`: as `c` ranges over residues mod `hi - lo + 1` the result
ranges uniformly over `[lo, hi]`. -/
def randint (lo hi : ℤ) (c : ℕ) : Option ℤ :=
  if lo ≤ hi then some (lo + (c : ℤ) % (hi - lo + 1)) else none

/-- `min(idx, num_frames - 1)` applied to
`pose_start * frame_multiplier + np.arange(context_size) * frame_multiplier`
comes below in `clamped_frame_indices`. -/
def frame_indices (pose_start ctx frame_multiplier : ℕ) : List ℕ :=
  (List.range ctx).map (fun k => pose_start * frame_multiplier + k * frame_multiplier)

/-- `citywalk_dataset.py` lines 118-124: compute the context frame indices and
clamp each to `[0, num_frames - 1]`. -/
def clamped_frame_indices (pose_start ctx frame_multiplier num_frames : ℕ) : List ℕ :=
  (frame_indices pose_start ctx frame_multiplier).map (fun idx => min idx (num_frames - 1))

/-! ## Poses, homogeneous transforms (`scipy.spatial.transform.Rotation`) -/

/-- A 3-D position, as the triple of its exact coordinates. -/
abbrev V3 := ℚ × ℚ × ℚ

/-- A retained pose: position `(px, py, pz)` and quaternion `(qx, qy, qz, qw)`
in scipy's scalar-last convention. -/
structure Pose where
  px : ℚ
  py : ℚ
  pz : ℚ
  qx : ℚ
  qy : ℚ
  qz : ℚ
  qw : ℚ
deriving DecidableEq, Inhabited

/-- The position block of a pose (`pose[:3]`). -/
def posOf (p : Pose) : V3 := (p.px, p.py, p.pz)

/-- A 4×4 matrix of exact rationals, with one field per entry. -/
structure Mat4 where
  m00 : ℚ
  m01 : ℚ
  m02 : ℚ
  m03 : ℚ
  m10 : ℚ
  m11 : ℚ
  m12 : ℚ
  m13 : ℚ
  m20 : ℚ
  m21 : ℚ
  m22 : ℚ
  m23 : ℚ
  m30 : ℚ
  m31 : ℚ
  m32 : ℚ
  m33 : ℚ
deriving DecidableEq, Inhabited

/-- Determinant of a 4×4 matrix (cofactor expansion along the first row, each
cofactor written out as a 3×3 determinant). -/
def det4 (A : Mat4) : ℚ :=
  A.m00 * (A.m11 * (A.m22 * A.m33 - A.m23 * A.m32) - A.m12 * (A.m21 * A.m33 - A.m23 * A.m31) + A.m13 * (A.m21 * A.m32 - A.m22 * A.m31))
  - A.m01 * (A.m10 * (A.m22 * A.m33 - A.m23 * A.m32) - A.m12 * (A.m20 * A.m33 - A.m23 * A.m30) + A.m13 * (A.m20 * A.m32 - A.m22 * A.m30))
  + A.m02 * (A.m10 * (A.m21 * A.m33 - A.m23 * A.m31) - A.m11 * (A.m20 * A.m33 - A.m23 * A.m30) + A.m13 * (A.m20 * A.m31 - A.m21 * A.m30))
  - A.m03 * (A.m10 * (A.m21 * A.m32 - A.m22 * A.m31) - A.m11 * (A.m20 * A.m32 - A.m22 * A.m30) + A.m12 * (A.m20 * A.m31 - A.m21 * A.m30))

/-- 4×4 matrix product (`np.matmul` on homogeneous transforms). -/
def mul4 (A B : Mat4) : Mat4 where
  m00 := A.m00 * B.m00 + A.m01 * B.m10 + A.m02 * B.m20 + A.m03 * B.m30
  m01 := A.m00 * B.m01 + A.m01 * B.m11 + A.m02 * B.m21 + A.m03 * B.m31
  m02 := A.m00 * B.m02 + A.m01 * B.m12 + A.m02 * B.m22 + A.m03 * B.m32
  m03 := A.m00 * B.m03 + A.m01 * B.m13 + A.m02 * B.m23 + A.m03 * B.m33
  m10 := A.m10 * B.m00 + A.m11 * B.m10 + A.m12 * B.m20 + A.m13 * B.m30
  m11 := A.m10 * B.m01 + A.m11 * B.m11 + A.m12 * B.m21 + A.m13 * B.m31
  m12 := A.m10 * B.m02 + A.m11 * B.m12 + A.m12 * B.m22 + A.m13 * B.m32
  m13 := A.m10 * B.m03 + A.m11 * B.m13 + A.m12 * B.m23 + A.m13 * B.m33
  m20 := A.m20 * B.m00 + A.m21 * B.m10 + A.m22 * B.m20 + A.m23 * B.m30
  m21 := A.m20 * B.m01 + A.m21 * B.m11 + A.m22 * B.m21 + A.m23 * B.m31
  m22 := A.m20 * B.m02 + A.m21 * B.m12 + A.m22 * B.m22 + A.m23 * B.m32
  m23 := A.m20 * B.m03 + A.m21 * B.m13 + A.m22 * B.m23 + A.m23 * B.m33
  m30 := A.m30 * B.m00 + A.m31 * B.m10 + A.m32 * B.m20 + A.m33 * B.m30
  m31 := A.m30 * B.m01 + A.m31 * B.m11 + A.m32 * B.m21 + A.m33 * B.m31
  m32 := A.m30 * B.m02 + A.m31 * B.m12 + A.m32 * B.m22 + A.m33 * B.m32
  m33 := A.m30 * B.m03 + A.m31 * B.m13 + A.m32 * B.m23 + A.m33 * B.m33

/-- `np.linalg.inv` on an invertible 4×4 matrix: the adjugate divided by the
determinant, entry `(i, j)` being `(-1)^(i+j) / det` times the minor obtained
by deleting row `j` and column `i`.  This is the unique two-sided inverse,
which is what `np.linalg.inv` computes; `np.linalg.inv` raises on a singular
input, which the pipeline never feeds it (the homogeneous transform of a pose
always has determinant 1). -/
def inv4 (A : Mat4) : Mat4 where
  m00 := (det4 A)⁻¹ * (A.m11 * (A.m22 * A.m33 - A.m23 * A.m32) - A.m12 * (A.m21 * A.m33 - A.m23 * A.m31) + A.m13 * (A.m21 * A.m32 - A.m22 * A.m31))
  m01 := -(det4 A)⁻¹ * (A.m01 * (A.m22 * A.m33 - A.m23 * A.m32) - A.m02 * (A.m21 * A.m33 - A.m23 * A.m31) + A.m03 * (A.m21 * A.m32 - A.m22 * A.m31))
  m02 := (det4 A)⁻¹ * (A.m01 * (A.m12 * A.m33 - A.m13 * A.m32) - A.m02 * (A.m11 * A.m33 - A.m13 * A.m31) + A.m03 * (A.m11 * A.m32 - A.m12 * A.m31))
  m03 := -(det4 A)⁻¹ * (A.m01 * (A.m12 * A.m23 - A.m13 * A.m22) - A.m02 * (A.m11 * A.m23 - A.m13 * A.m21) + A.m03 * (A.m11 * A.m22 - A.m12 * A.m21))
  m10 := -(det4 A)⁻¹ * (A.m10 * (A.m22 * A.m33 - A.m23 * A.m32) - A.m12 * (A.m20 * A.m33 - A.m23 * A.m30) + A.m13 * (A.m20 * A.m32 - A.m22 * A.m30))
  m11 := (det4 A)⁻¹ * (A.m00 * (A.m22 * A.m33 - A.m23 * A.m32) - A.m02 * (A.m20 * A.m33 - A.m23 * A.m30) + A.m03 * (A.m20 * A.m32 - A.m22 * A.m30))
  m12 := -(det4 A)⁻¹ * (A.m00 * (A.m12 * A.m33 - A.m13 * A.m32) - A.m02 * (A.m10 * A.m33 - A.m13 * A.m30) + A.m03 * (A.m10 * A.m32 - A.m12 * A.m30))
  m13 := (det4 A)⁻¹ * (A.m00 * (A.m12 * A.m23 - A.m13 * A.m22) - A.m02 * (A.m10 * A.m23 - A.m13 * A.m20) + A.m03 * (A.m10 * A.m22 - A.m12 * A.m20))
  m20 := (det4 A)⁻¹ * (A.m10 * (A.m21 * A.m33 - A.m23 * A.m31) - A.m11 * (A.m20 * A.m33 - A.m23 * A.m30) + A.m13 * (A.m20 * A.m31 - A.m21 * A.m30))
  m21 := -(det4 A)⁻¹ * (A.m00 * (A.m21 * A.m33 - A.m23 * A.m31) - A.m01 * (A.m20 * A.m33 - A.m23 * A.m30) + A.m03 * (A.m20 * A.m31 - A.m21 * A.m30))
  m22 := (det4 A)⁻¹ * (A.m00 * (A.m11 * A.m33 - A.m13 * A.m31) - A.m01 * (A.m10 * A.m33 - A.m13 * A.m30) + A.m03 * (A.m10 * A.m31 - A.m11 * A.m30))
  m23 := -(det4 A)⁻¹ * (A.m00 * (A.m11 * A.m23 - A.m13 * A.m21) - A.m01 * (A.m10 * A.m23 - A.m13 * A.m20) + A.m03 * (A.m10 * A.m21 - A.m11 * A.m20))
  m30 := -(det4 A)⁻¹ * (A.m10 * (A.m21 * A.m32 - A.m22 * A.m31) - A.m11 * (A.m20 * A.m32 - A.m22 * A.m30) + A.m12 * (A.m20 * A.m31 - A.m21 * A.m30))
  m31 := (det4 A)⁻¹ * (A.m00 * (A.m21 * A.m32 - A.m22 * A.m31) - A.m01 * (A.m20 * A.m32 - A.m22 * A.m30) + A.m02 * (A.m20 * A.m31 - A.m21 * A.m30))
  m32 := -(det4 A)⁻¹ * (A.m00 * (A.m11 * A.m32 - A.m12 * A.m31) - A.m01 * (A.m10 * A.m32 - A.m12 * A.m30) + A.m02 * (A.m10 * A.m31 - A.m11 * A.m30))
  m33 := (det4 A)⁻¹ * (A.m00 * (A.m11 * A.m22 - A.m12 * A.m21) - A.m01 * (A.m10 * A.m22 - A.m12 * A.m20) + A.m02 * (A.m10 * A.m21 - A.m11 * A.m20))

/-- The translation column `M[:3, 3]` of a homogeneous transform. -/
def translationOf (M : Mat4) : V3 := (M.m03, M.m13, M.m23)

/-- `pose_to_matrix` (`citywalk_dataset.py` lines 240-246): the homogeneous
transform whose rotation block is `R.from_quat(pose[3:]).as_matrix()` and whose
translation column is `pose[:3]`.  scipy normalizes the quaternion and then
applies the unit-quaternion rotation formula; folding the normalization into
the quadratic formula gives the scale `s = 2 / (qx²+qy²+qz²+qw²)`, which is
exact over ℚ and agrees with scipy on every nonzero quaternion. -/
def pose_to_matrix (p : Pose) : Mat4 :=
  let n := p.qx ^ 2 + p.qy ^ 2 + p.qz ^ 2 + p.qw ^ 2
  let s := 2 / n
  { m00 := 1 - s * (p.qy ^ 2 + p.qz ^ 2)
    m01 := s * (p.qx * p.qy - p.qz * p.qw)
    m02 := s * (p.qx * p.qz + p.qy * p.qw)
    m03 := p.px
    m10 := s * (p.qx * p.qy + p.qz * p.qw)
    m11 := 1 - s * (p.qx ^ 2 + p.qz ^ 2)
    m12 := s * (p.qy * p.qz - p.qx * p.qw)
    m13 := p.py
    m20 := s * (p.qx * p.qz - p.qy * p.qw)
    m21 := s * (p.qy * p.qz + p.qx * p.qw)
    m22 := 1 - s * (p.qx ^ 2 + p.qy ^ 2)
    m23 := p.pz
    m30 := 0
    m31 := 0
    m32 := 0
    m33 := 1 }

/-- `transform_poses` (`citywalk_dataset.py` lines 181-187): left-multiply each
pose's transform by the inverse of the reference pose's transform and keep the
translation column. -/
def transform_poses (poses : List Pose) (current_pose : Pose) : List V3 :=
  poses.map (fun p =>
    translationOf (mul4 (inv4 (pose_to_matrix current_pose)) (pose_to_matrix p)))

/-- `transform_waypoints` (`citywalk_dataset.py` lines 224-230); its body is
the same computation as `transform_poses`. -/
def transform_waypoints (waypoint_poses : List Pose) (current_pose : Pose) : List V3 :=
  waypoint_poses.map (fun p =>
    translationOf (mul4 (inv4 (pose_to_matrix current_pose)) (pose_to_matrix p)))

/-- `transform_target_pose` (`citywalk_dataset.py` lines 232-238). -/
def transform_target_pose (target_pose current_pose : Pose) : V3 :=
  translationOf (mul4 (inv4 (pose_to_matrix current_pose)) (pose_to_matrix target_pose))

/-! ## `CityWalkDataset.__getitem__` -/

/-- `get_input_and_future_poses` (`citywalk_dataset.py` lines 189-195):
the `context_size` input poses, and the future poses up to
`min(pose_start + context_size + search_window, len(pose))`; `none` models the
`IndexError` raised when the future window is empty. -/
def get_input_and_future_poses (pose : List Pose) (pose_start ctx sw : ℕ) :
    Option (List Pose × List Pose) :=
  let input_poses := (pose.drop pose_start).take ctx
  let search_end := min (pose_start + ctx + sw) pose.length
  let future_poses := (pose.drop (pose_start + ctx)).take (search_end - (pose_start + ctx))
  if future_poses.length = 0 then none else some (input_poses, future_poses)

/-- The draw `random.randint(0, future_poses.shape[0] - 1)` of
`select_target_pose` (`citywalk_dataset.py` line 198). -/
def citywalkTargetIdx (futureLen : ℕ) (c : ℕ) : Option ℤ :=
  randint 0 ((futureLen : ℤ) - 1) c

/-- `select_target_pose` (`citywalk_dataset.py` lines 197-200). -/
def select_target_pose (future_poses : List Pose) (c : ℕ) : Option Pose :=
  (citywalkTargetIdx future_poses.length c).bind (fun t => future_poses.get? t.toNat)

/-- The squared Euclidean distance between two positions. -/
def sqDist (a b : V3) : ℚ :=
  (b.1 - a.1) ^ 2 + (b.2.1 - a.2.1) ^ 2 + (b.2.2 - a.2.2) ^ 2

/-- `determine_arrived_label` (`citywalk_dataset.py` lines 202-205):
`np.linalg.norm(target_pos - current_pos) <= arrived_threshold`, stated without
the square root: for `d = √s` with `s ≥ 0`, `d ≤ thr ↔ 0 ≤ thr ∧ s ≤ thr²`
(`Real.sqrt_le_iff`; the equivalence is proved below as part of claim C6). -/
def determine_arrived_label (current_pos target_pos : V3) (thr : ℚ) : Bool :=
  decide (0 ≤ thr ∧ sqDist current_pos target_pos ≤ thr ^ 2)

/-- `extract_waypoints` (`citywalk_dataset.py` lines 207-211):
`pose[pose_start + context_size : pose_start + context_size + wp_length]`. -/
def extract_waypoints (pose : List Pose) (pose_start ctx wp : ℕ) : List Pose :=
  (pose.drop (pose_start + ctx)).take wp

/-- `add_noise` (`citywalk_dataset.py` lines 213-216): add the noise
realization to the position channels of the input poses, leaving the
quaternion untouched. -/
def add_noise (input_poses : List Pose) (noise : List V3) : List Pose :=
  List.zipWith
    (fun p e => { p with px := p.px + e.1, py := p.py + e.2.1, pz := p.pz + e.2.2 })
    input_poses noise

/-- The geometric/label content of one video-source sample
(`CityWalkDataset.__getitem__`).  Frame decoding and the final tensor
conversion / 2-D `[:, [0, 2]]` projection carry the positions through
unchanged, so positions are recorded as full 3-D egocentric vectors; the
fields `current_pose`, `last_input0`, `target`, `target_idx` and `future_len`
record intermediates of the computation so that properties can be stated
about them. -/
structure CitySample where
  input_positions : List V3
  original_input_positions : List V3
  waypoints : List V3
  arrived : Bool
  target_transformed : V3
  current_pose : Pose
  last_input0 : Pose
  target : Pose
  target_idx : ℕ
  future_len : ℕ
deriving DecidableEq, Inhabited

/-- `CityWalkDataset.__getitem__` (`citywalk_dataset.py` lines 108-179), for a
given sequence `pose` and intra-sequence offset `pose_start`.  Randomness is
made explicit: `c` is the uniform source of the `random.randint` target draw
and `noise` is the Gaussian noise realization of `np.random.normal`.  `none`
models the request aborting with an exception (empty future window, or an
empty input window making `input_poses[-1]` fail). -/
def citywalk_getitem (pose : List Pose) (pose_start ctx sw wp : ℕ)
    (thr input_noise : ℚ) (c : ℕ) (noise : List V3) : Option CitySample :=
  (get_input_and_future_poses pose pose_start ctx sw).bind (fun ifp =>
  (citywalkTargetIdx ifp.2.length c).bind (fun t =>
  (ifp.2.get? t.toNat).bind (fun target_pose =>
  (ifp.1.getLast?).bind (fun last0 =>
    let arrived := determine_arrived_label (posOf last0) (posOf target_pose) thr
    let waypoint_poses := extract_waypoints pose pose_start ctx wp
    let input_poses := if 0 < input_noise then add_noise ifp.1 noise else ifp.1
    (input_poses.getLast?).map (fun current_pose =>
      { input_positions := transform_poses input_poses current_pose
        original_input_positions := transform_poses ifp.1 current_pose
        waypoints := transform_waypoints waypoint_poses current_pose
        arrived := arrived
        target_transformed := transform_target_pose target_pose current_pose
        current_pose := current_pose
        last_input0 := last0
        target := target_pose
        target_idx := t.toNat
        future_len := ifp.2.length })))))

/-! ## `UrbanNavDataset` (robot source, `urbannav_dataset.py`) -/

/-- One record pair of a robot pose/GPS log: a comma-split GPS line followed by
a comma-split pose line.  Tokens are modelled by their parsed numeric values
(the trailing image-filename token of a pose line plays no role in any claim
and is modelled like the rest). -/
structure RecordPair where
  gps : List ℚ
  pose : List ℚ
deriving DecidableEq, Inhabited

/-- `latlon_to_local` (`urbannav_dataset.py` lines 299-309).  The transcendental
routines `np.radians` and `np.cos` have no exact rational counterpart, so they
are passed in as the parameters `rad` and `cosr`; every claim below holds for
all choices of these functions. -/
def latlon_to_local (rad cosr : ℚ → ℚ) (lat lon lat0 lon0 : ℚ) : ℚ × ℚ :=
  let R_earth : ℚ := 6378137
  let lat_rad := rad lat
  let lon_rad := rad lon
  let lat0_rad := rad lat0
  let lon0_rad := rad lon0
  let dlat := lat_rad - lat0_rad
  let dlon := lon_rad - lon0_rad
  (dlon * cosr ((lat_rad + lat0_rad) / 2) * R_earth, dlat * R_earth)

/-- The per-file parsing loop of `UrbanNavDataset.__init__`
(`urbannav_dataset.py` lines 74-125): walk the line pairs in order; a GPS line
with fewer than 8 tokens skips the whole pair; otherwise the GPS fix is
converted to local coordinates (anchored at the first retained fix, threaded
through as `ref`) and appended; then a pose line with fewer than 11 tokens is
skipped (`continue`) while the GPS fix stays appended; otherwise the pose is
appended.  Returns the `(gps_positions, poses)` lists. -/
def parseLoopAux (rad cosr : ℚ → ℚ) :
    List RecordPair → Option (ℚ × ℚ × ℚ) → List V3 × List Pose
  | [], _ => ([], [])
  | pr :: rest, ref =>
    if pr.gps.length < 8 then parseLoopAux rad cosr rest ref
    else
      let latitude := pr.gps.getD 1 0
      let longitude := pr.gps.getD 2 0
      let altitude := pr.gps.getD 4 0
      let ref2 := ref.getD (latitude, longitude, altitude)
      let xy := latlon_to_local rad cosr latitude longitude ref2.1 ref2.2.1
      let gps_position : V3 := (xy.1, xy.2, altitude - ref2.2.2)
      let res := parseLoopAux rad cosr rest (some ref2)
      if pr.pose.length < 11 then (gps_position :: res.1, res.2)
      else
        let qw := pr.pose.getD 2 0
        let qx := pr.pose.getD 3 0
        let qy := pr.pose.getD 4 0
        let qz := pr.pose.getD 5 0
        let tx := pr.pose.getD 6 0
        let ty := pr.pose.getD 7 0
        let tz := pr.pose.getD 8 0
        (gps_position :: res.1, (⟨tx, ty, tz, qx, qy, qz, qw⟩ : Pose) :: res.2)

/-- Parse one robot pose/GPS log (`ref_lat/ref_lon/ref_alt` start out unset). -/
def urbannavParse (rad cosr : ℚ → ℚ) (pairs : List RecordPair) : List V3 × List Pose :=
  parseLoopAux rad cosr pairs none

/-- Loading plus filtering of the robot source (`urbannav_dataset.py` lines
57-142): parse each log, skip sequences with zero poses or zero GPS fixes,
pair each survivor with its usable count, then drop counts of `0`. -/
def urbannavLoad (rad cosr : ℚ → ℚ) (seqs : List (List RecordPair))
    (ctx sw wp : ℕ) : List ((List V3 × List Pose) × ℕ) :=
  let loaded := (seqs.map (urbannavParse rad cosr)).filter
    (fun gp => decide (0 < gp.2.length) && decide (0 < gp.1.length))
  let pairs := loaded.map (fun gp => (gp, usableCount gp.2.length ctx sw wp))
  pairs.filter (fun pr => decide (0 < pr.2))

/-- The future GPS window of `UrbanNavDataset.__getitem__`
(`urbannav_dataset.py` line 168):
`gps_positions[pose_start + context_size : pose_start + context_size + search_window]`. -/
def urbannav_future_gps (gps_positions : List V3) (pose_start ctx sw : ℕ) : List V3 :=
  (gps_positions.drop (pose_start + ctx)).take sw

/-- `select_target_index` (`urbannav_dataset.py` lines 240-247).  The Bernoulli
draw `np.random.rand() < arrived_prob` is supplied as the realization
`arrivedDraw`; `c` is the uniform source of the `random.randint` draw.  `none`
models the `ValueError` raised by `random.randint` on an empty range. -/
def select_target_index (future_len : ℕ) (wp_length arrived_threshold : ℕ)
    (arrivedDraw : Bool) (c : ℕ) : Option (ℤ × Bool) :=
  let max_idx : ℤ := (future_len : ℤ) - 1
  if arrivedDraw then
    (randint (wp_length : ℤ) (min ((wp_length : ℤ) + (arrived_threshold : ℤ)) max_idx) c).map
      (fun t => (t, true))
  else
    (randint ((wp_length : ℤ) + (arrived_threshold : ℤ)) max_idx c).map (fun t => (t, false))

/-- The index/selection skeleton of one robot-source sample
(`UrbanNavDataset.__getitem__`, `urbannav_dataset.py` lines 159-247): the
future GPS window with its emptiness check (the request-time `IndexError`),
then the target-index draw.  The image loading, the egocentric transforms and
the tensor packaging consume the values produced here and raise no further
index errors of their own; the claims about this source concern the part
modelled here. -/
structure UrbanSelection where
  target_idx : ℤ
  arrived : Bool
  future_len : ℕ
deriving DecidableEq, Inhabited

def urbannav_getitem (gps_positions : List V3) (pose_start ctx sw : ℕ)
    (wp_length arrived_threshold : ℕ) (arrivedDraw : Bool) (c : ℕ) :
    Option UrbanSelection :=
  let future_gps := urbannav_future_gps gps_positions pose_start ctx sw
  if future_gps.length = 0 then none
  else
    (select_target_index future_gps.length wp_length arrived_threshold arrivedDraw c).map
      (fun ta => ⟨ta.1, ta.2, future_gps.length⟩)

/-! ## Concrete inputs used by counterexamples and witnesses -/

/-- A decimated row with no NaN component. -/
def cleanRow : Row := [some 1, some 0, some 0, some 0, some 0, some 0, some 1]

/-- A decimated row whose first component is NaN. -/
def nanRow : Row := [none, some 0, some 0, some 0, some 0, some 0, some 1]

/-- A raw (pre-decimation) row: timestamp followed by the seven pose fields. -/
def rawOf (r : Row) : Row := some 0 :: r

/-- A pose at position `(x, 0, 0)` with the identity quaternion. -/
def idPose (x : ℚ) : Pose := ⟨x, 0, 0, 0, 0, 0, 1⟩

/-- A three-pose sequence used by concrete instances. -/
def demoPoses : List Pose := [idPose 0, idPose 1, idPose 5]

/-- A noise realization for a two-pose input window, nonzero on the last pose. -/
def demoNoise : List V3 := [(0, 0, 0), (1, 0, 0)]

/-- A well-formed GPS line (8 comma-separated fields). -/
def goodGps : List ℚ := [0, 0, 0, 0, 0, 0, 0, 0]

/-- A well-formed pose line (11 comma-separated fields). -/
def goodPose : List ℚ := [0, 0, 0, 0, 0, 0, 0, 0, 0, 0, 0]

/-- A malformed pose line (fewer than 11 fields). -/
def badPose : List ℚ := [0, 0, 0]

/-- A robot log of five well-formed record pairs. -/
def demoPairs : List RecordPair :=
  [⟨goodGps, goodPose⟩, ⟨goodGps, goodPose⟩, ⟨goodGps, goodPose⟩,
   ⟨goodGps, goodPose⟩, ⟨goodGps, goodPose⟩]

/-- A robot log whose first pair has a well-formed GPS line but a malformed
pose line. -/
def desyncPairs : List RecordPair :=
  [⟨goodGps, badPose⟩, ⟨goodGps, goodPose⟩]

/-- A list of raw video-source pose logs with one five-row sequence. -/
def demoRaws : List (List Row) := [List.replicate 5 (rawOf cleanRow)]

/-- The video-source sample produced at sequence `demoPoses`, offset `0`,
`context_size = 2`, `search_window = 1`, `wp_length = 1`, `arrived_threshold
= 0`, `input_noise = 1`, with target draw `0` and noise realization
`demoNoise`. -/
def c6sample : CitySample :=
  (citywalk_getitem demoPoses 0 2 1 1 0 1 0 demoNoise).iget

/-! ## General helper lemmas -/

theorem opt_eq_some_iget {α : Type} [Inhabited α] (x : Option α) (h : x.isSome) :
    x = some x.iget := by
  cases x <;> simp_all [Option.iget]

theorem randint_bounds {lo hi v : ℤ} {c : ℕ} (h : randint lo hi c = some v) :
    lo ≤ v ∧ v ≤ hi := by
  unfold randint at h
  split at h
  case isTrue hle =>
    have hv : lo + (c : ℤ) % (hi - lo + 1) = v := Option.some.inj h
    have h1 : 0 ≤ (c : ℤ) % (hi - lo + 1) :=
      Int.emod_nonneg _ (by omega)
    have h2 : (c : ℤ) % (hi - lo + 1) < hi - lo + 1 :=
      Int.emod_lt_of_pos _ (by omega)
    omega
  case isFalse => exact absurd h (by simp)

theorem randint_surj (lo hi v : ℤ) (h1 : lo ≤ v) (h2 : v ≤ hi) :
    randint lo hi (v - lo).toNat = some v := by
  unfold randint
  rw [if_pos (le_trans h1 h2)]
  have hv : (((v - lo).toNat : ℕ) : ℤ) = v - lo := Int.toNat_of_nonneg (by omega)
  rw [hv, Int.emod_eq_of_lt (by omega) (by omega)]
  congr 1
  omega

/-- **C1** (code bug).  Claimed: after decimation the retained rows are exactly
the rows strictly before the first NaN row.  The code computes the cut with
`np.argmin(pose_nan)` — the index of the first NaN-**free** row — instead of
`np.argmax`: on `[clean, nan]` it truncates to the empty list where the claim
keeps `[clean]`, and on `[nan, clean]` it retains the NaN row where the claim
keeps nothing. -/
theorem c1_nan_truncation_code_bug :
    loadPose [rawOf cleanRow, rawOf nanRow] 1 1 = []
    ∧ truncateNaNSpec [cleanRow, nanRow] = [cleanRow]
    ∧ truncateNaN [nanRow, cleanRow] = [nanRow]
    ∧ truncateNaNSpec [nanRow, cleanRow] = [] := by
  decide

/-- For a reference pose carrying the identity quaternion, the egocentric
transform is translation by the negated reference position.  (Used to evaluate
the pipeline at concrete data.) -/
theorem transform_target_pose_idquat (p : Pose) (a b c : ℚ) :
    transform_target_pose p ⟨a, b, c, 0, 0, 0, 1⟩ = (p.px - a, p.py - b, p.pz - c) := by
  simp only [transform_target_pose, translationOf, mul4, inv4, det4, pose_to_matrix]
  norm_num
  refine ⟨by ring, by ring, by ring⟩

/-- **C2** counterexample: a noise realization that moves the last input pose
changes the egocentric target position, so the reference frame is *not* the
pre-noise last input pose and the outputs are not noise-invariant.  Here the
un-noised last input pose is `(1,0,0)` and the noise adds `(1,0,0)` to it:
with `input_noise = 1` the target `(5,0,0)` is re-expressed as `(3,0,0)`,
while with noise disabled (`input_noise = 0`) it is `(4,0,0)`. -/
theorem c2_counterexample :
    (citywalk_getitem demoPoses 0 2 1 1 0 1 0 demoNoise).map CitySample.target_transformed ≠
    (citywalk_getitem demoPoses 0 2 1 1 0 0 0 demoNoise).map CitySample.target_transformed := by
  simp only [citywalk_getitem, get_input_and_future_poses, citywalkTargetIdx, randint,
    extract_waypoints, add_noise, transform_poses, transform_waypoints,
    determine_arrived_label, sqDist, posOf, demoPoses, demoNoise, idPose]
  norm_num
  rw [transform_target_pose_idquat, transform_target_pose_idquat]
  norm_num

/-- The input window returned by `get_input_and_future_poses` is always
`pose[pose_start : pose_start + context_size]`. -/
theorem input_window_eq {pose : List Pose} {ps ctx sw : ℕ} {ifp : List Pose × List Pose}
    (h : get_input_and_future_poses pose ps ctx sw = some ifp) :
    ifp.1 = (pose.drop ps).take ctx := by
  unfold get_input_and_future_poses at h
  simp only [] at h
  split at h
  · exact absurd h (by simp)
  · exact (Option.some.inj h) ▸ rfl

/-- With noise disabled (`input_noise ≤ 0`) the sample does not depend on the
noise realization. -/
theorem citywalk_getitem_noise_free (pose : List Pose) (ps ctx sw wp : ℕ)
    (thr σ : ℚ) (c : ℕ) (hσ : σ ≤ 0) (n1 n2 : List V3) :
    citywalk_getitem pose ps ctx sw wp thr σ c n1
      = citywalk_getitem pose ps ctx sw wp thr σ c n2 := by
  unfold citywalk_getitem
  simp only [if_neg (not_lt.mpr hσ)]

/-- **C2** amended: the egocentric reference frame used by the transforms of a
video-source sample is the last input pose **after** noise injection (the code
takes `current_pose = input_poses[-1]` after `add_noise` has mutated
`input_poses`); only when noise is disabled (`input_noise ≤ 0`) is the
reference the pre-noise last input pose, and then the sample does not depend
on the noise realization at all. -/
theorem c2_reference_post_noise (pose : List Pose) (ps ctx sw wp : ℕ)
    (thr σ : ℚ) (c : ℕ) (noise : List V3) (s : CitySample)
    (h : citywalk_getitem pose ps ctx sw wp thr σ c noise = some s) :
    some s.current_pose
      = (if 0 < σ then add_noise ((pose.drop ps).take ctx) noise
         else (pose.drop ps).take ctx).getLast?
    ∧ (σ ≤ 0 → ∀ noise2,
        citywalk_getitem pose ps ctx sw wp thr σ c noise2
          = citywalk_getitem pose ps ctx sw wp thr σ c noise) := by
  refine ⟨?_, fun hσ noise2 => citywalk_getitem_noise_free pose ps ctx sw wp thr σ c hσ noise2 noise⟩
  unfold citywalk_getitem at h
  rcases hg : get_input_and_future_poses pose ps ctx sw with _ | ifp
  · rw [hg] at h; exact absurd h (by simp)
  rw [hg] at h
  simp only [Option.some_bind, Option.bind_eq_some, Option.map_eq_some'] at h
  obtain ⟨t, ht, tp, htp, l0, hl0, cp, hcp, hs⟩ := h
  subst hs
  rw [← input_window_eq hg]
  exact hcp.symm

/-- Witness for `c2_reference_post_noise` at a concrete input. -/
theorem c2_reference_post_noise_witness :
    some ((citywalk_getitem demoPoses 0 2 1 1 0 1 0 demoNoise).iget.current_pose)
      = (if (0 : ℚ) < 1 then add_noise ((demoPoses.drop 0).take 2) demoNoise
         else (demoPoses.drop 0).take 2).getLast?
    ∧ ((1 : ℚ) ≤ 0 → ∀ noise2,
        citywalk_getitem demoPoses 0 2 1 1 0 1 0 noise2
          = citywalk_getitem demoPoses 0 2 1 1 0 1 0 demoNoise) :=
  c2_reference_post_noise demoPoses 0 2 1 1 0 1 0 demoNoise
    ((citywalk_getitem demoPoses 0 2 1 1 0 1 0 demoNoise).iget)
    (opt_eq_some_iget _ (by decide))

/-- The video-source arrival label, restated through the real Euclidean
distance. -/
theorem arrived_iff_dist_le (a b : V3) (thr : ℚ) :
    determine_arrived_label a b thr = true
      ↔ Real.sqrt ((sqDist a b : ℚ) : ℝ) ≤ (thr : ℝ) := by
  rw [determine_arrived_label, decide_eq_true_eq, Real.sqrt_le_iff]
  exact_mod_cast Iff.rfl

/-- **C6**: for every video-source sample, the target offset is drawn from the
integers `[0, len(future) - 1]` and every offset in that interval is drawn for
some realization of the uniform source; the arrival label is a deterministic
function of the sampled target — it equals `true` exactly when the Euclidean
distance between the pre-noise last input position (`last_input0`, which the
last conjunct identifies as the last element of the un-noised input window)
and the selected target position is at most `arrived_threshold`. -/
theorem c6_uniform_target_deterministic_label (pose : List Pose) (ps ctx sw wp : ℕ)
    (thr σ : ℚ) (c : ℕ) (noise : List V3) (s : CitySample)
    (h : citywalk_getitem pose ps ctx sw wp thr σ c noise = some s) :
    s.target_idx < s.future_len
    ∧ (∀ i : ℕ, i < s.future_len → ∃ c2, citywalkTargetIdx s.future_len c2 = some (i : ℤ))
    ∧ s.arrived = determine_arrived_label (posOf s.last_input0) (posOf s.target) thr
    ∧ (s.arrived = true
        ↔ Real.sqrt ((sqDist (posOf s.last_input0) (posOf s.target) : ℚ) : ℝ) ≤ (thr : ℝ))
    ∧ (∀ ifp : List Pose × List Pose, get_input_and_future_poses pose ps ctx sw = some ifp →
        ifp.1.getLast? = some s.last_input0
        ∧ ifp.2.get? s.target_idx = some s.target
        ∧ s.future_len = ifp.2.length) := by
  unfold citywalk_getitem at h
  rcases hg : get_input_and_future_poses pose ps ctx sw with _ | ifp
  · rw [hg] at h; exact absurd h (by simp)
  rw [hg] at h
  simp only [Option.some_bind, Option.bind_eq_some, Option.map_eq_some'] at h
  obtain ⟨t, ht, tp, htp, l0, hl0, cp, hcp, hs⟩ := h
  subst hs
  dsimp only
  have hb := randint_bounds ht
  refine ⟨by omega, ?_, rfl, arrived_iff_dist_le _ _ _, ?_⟩
  · intro i hi
    refine ⟨(i : ℤ).toNat, ?_⟩
    unfold citywalkTargetIdx
    have hs1 := randint_surj 0 ((ifp.2.length : ℤ) - 1) (i : ℤ) (by omega) (by omega)
    simpa using hs1
  · intro ifp2 hifp2
    obtain rfl : ifp = ifp2 := Option.some.inj hifp2
    exact ⟨hl0, htp, rfl⟩

/-! ## Global-index lemmas -/

theorem buildIndexAux_lut (counts : List ℕ) (s0 a0 : ℕ) :
    (buildIndexAux counts s0 a0).1
      = (counts.enumFrom s0).flatMap (fun p => lutEntries p.1 p.2) := by
  induction counts generalizing s0 a0 with
  | nil => rfl
  | cons c rest ih =>
    simp [buildIndexAux, List.enumFrom, ih (s0 + 1) (a0 + c)]

theorem buildIndexAux_len (counts : List ℕ) (s0 a0 : ℕ) :
    (buildIndexAux counts s0 a0).1.length = counts.sum := by
  induction counts generalizing s0 a0 with
  | nil => rfl
  | cons c rest ih =>
    simp [buildIndexAux, lutEntries, ih (s0 + 1) (a0 + c)]

theorem buildIndexAux_ranges (counts : List ℕ) (s0 a0 : ℕ) :
    (buildIndexAux counts s0 a0).2
      = (List.range counts.length).map
          (fun i => (a0 + (counts.take i).sum, a0 + (counts.take (i + 1)).sum)) := by
  induction counts generalizing s0 a0 with
  | nil => rfl
  | cons c rest ih =>
    simp only [buildIndexAux, ih (s0 + 1) (a0 + c), List.length_cons]
    rw [List.range_succ_eq_map]
    simp only [List.map_cons, List.take_zero, List.sum_nil, Nat.add_zero, List.take_succ_cons,
      List.sum_cons, List.map_map]
    congr 1
    simp only [List.map_inj_left, Function.comp_apply, Nat.succ_eq_add_one, List.take_succ_cons,
      List.sum_cons, Prod.mk.injEq]
    exact fun a _ => ⟨by omega, by omega⟩

theorem buildIndexAux_lut_mem (counts : List ℕ) (s0 a0 : ℕ) :
    ∀ e ∈ (buildIndexAux counts s0 a0).1,
      s0 ≤ e.1 ∧ e.1 - s0 < counts.length ∧ e.2 < counts.getD (e.1 - s0) 0 := by
  induction counts generalizing s0 a0 with
  | nil => simp [buildIndexAux]
  | cons c rest ih =>
    intro e he
    simp only [buildIndexAux, List.mem_append] at he
    rcases he with he | he
    · simp only [lutEntries, List.mem_map, List.mem_range] at he
      obtain ⟨k, hk, rfl⟩ := he
      simpa using hk
    · obtain ⟨h1, h2, h3⟩ := ih (s0 + 1) (a0 + c) e he
      refine ⟨by omega, by simpa using by omega, ?_⟩
      have hd : e.1 - s0 = (e.1 - (s0 + 1)) + 1 := by omega
      rw [hd, List.getD_cons_succ]
      exact h3

/-! ## Load/filter lemmas -/

theorem usableCount_intCast (n ctx sw wp : ℕ) :
    (usableCount n ctx sw wp : ℤ) = max ((n : ℤ) - ctx - max sw wp) 0 := by
  unfold usableCount
  omega

theorem citywalkLoad_mem {raws : List (List Row)} {pf tf ctx sw wp : ℕ}
    {pr : List Row × ℕ} (h : pr ∈ citywalkLoad raws pf tf ctx sw wp) :
    pr.2 = usableCount pr.1.length ctx sw wp ∧ 0 < pr.2 := by
  unfold citywalkLoad at h
  simp only [List.mem_filter, List.mem_map, decide_eq_true_eq] at h
  obtain ⟨⟨r, _, hfr⟩, hpos⟩ := h
  subst hfr
  exact ⟨rfl, hpos⟩

theorem urbannavLoad_mem {rad cosr : ℚ → ℚ} {seqs : List (List RecordPair)}
    {ctx sw wp : ℕ} {pr : (List V3 × List Pose) × ℕ}
    (h : pr ∈ urbannavLoad rad cosr seqs ctx sw wp) :
    pr.2 = usableCount pr.1.2.length ctx sw wp ∧ 0 < pr.2 := by
  unfold urbannavLoad at h
  simp only [List.mem_filter, List.mem_map, decide_eq_true_eq] at h
  obtain ⟨⟨gp, _, hfr⟩, hpos⟩ := h
  subst hfr
  exact ⟨rfl, hpos⟩

/-- **C3**: in both sources every retained sequence's usable count equals
`max(0, numPoses - contextSize - max(searchWindow, waypointLength))` computed
on the post-truncation pose list, retained counts are positive (zero-count
sequences are removed before index construction), and every entry of the
global lookup table names a retained sequence — one whose count is positive. -/
theorem c3_usable_count_filtering
    (raws : List (List Row)) (pose_fps target_fps ctx sw wp : ℕ)
    (rad cosr : ℚ → ℚ) (seqs : List (List RecordPair)) :
    (∀ pr ∈ citywalkLoad raws pose_fps target_fps ctx sw wp,
        (pr.2 : ℤ) = max ((pr.1.length : ℤ) - ctx - max sw wp) 0 ∧ 0 < pr.2)
    ∧ (∀ pr ∈ urbannavLoad rad cosr seqs ctx sw wp,
        (pr.2 : ℤ) = max ((pr.1.2.length : ℤ) - ctx - max sw wp) 0 ∧ 0 < pr.2)
    ∧ (∀ e ∈ (buildIndex ((citywalkLoad raws pose_fps target_fps ctx sw wp).map Prod.snd)).1,
        e.1 < (citywalkLoad raws pose_fps target_fps ctx sw wp).length
        ∧ 0 < ((citywalkLoad raws pose_fps target_fps ctx sw wp).map Prod.snd).getD e.1 0)
    ∧ (∀ e ∈ (buildIndex ((urbannavLoad rad cosr seqs ctx sw wp).map Prod.snd)).1,
        e.1 < (urbannavLoad rad cosr seqs ctx sw wp).length
        ∧ 0 < ((urbannavLoad rad cosr seqs ctx sw wp).map Prod.snd).getD e.1 0) := by
  refine ⟨?_, ?_, ?_, ?_⟩
  · intro pr hpr
    obtain ⟨he, hpos⟩ := citywalkLoad_mem hpr
    refine ⟨?_, hpos⟩
    rw [he, usableCount_intCast]
  · intro pr hpr
    obtain ⟨he, hpos⟩ := urbannavLoad_mem hpr
    refine ⟨?_, hpos⟩
    rw [he, usableCount_intCast]
  · intro e he
    obtain ⟨h1, h2, h3⟩ := buildIndexAux_lut_mem _ 0 0 e he
    simp only [Nat.sub_zero] at h2 h3
    rw [List.length_map] at h2
    exact ⟨h2, by omega⟩
  · intro e he
    obtain ⟨h1, h2, h3⟩ := buildIndexAux_lut_mem _ 0 0 e he
    simp only [Nat.sub_zero] at h2 h3
    rw [List.length_map] at h2
    exact ⟨h2, by omega⟩

/-- **C4**: the flat index is exactly the concatenation, in original sequence
order, of the entries `(i, 0) … (i, cᵢ - 1)` for each sequence `i`; the
recorded range of sequence `i` is `[c₀+…+cᵢ₋₁, c₀+…+cᵢ)`; the flat index has
length `Σ cᵢ`; and the construction-time assertion fails iff that total is
zero. -/
theorem c4_global_index (counts : List ℕ) :
    (buildIndex counts).1 = counts.enum.flatMap (fun p => lutEntries p.1 p.2)
    ∧ (buildIndex counts).2
      = (List.range counts.length).map
          (fun i => ((counts.take i).sum, (counts.take (i + 1)).sum))
    ∧ (buildIndex counts).1.length = counts.sum
    ∧ (constructionFails counts = true ↔ counts.sum = 0) := by
  refine ⟨buildIndexAux_lut counts 0 0, ?_, buildIndexAux_len counts 0 0, ?_⟩
  · rw [buildIndex, buildIndexAux_ranges counts 0 0]
    simp
  · unfold constructionFails
    rw [show (buildIndex counts).1.length = counts.sum from buildIndexAux_len counts 0 0]
    simp

/-- `random.randint` succeeds exactly on a non-empty range. -/
theorem randint_isSome (lo hi : ℤ) (c : ℕ) (h : lo ≤ hi) : (randint lo hi c).isSome := by
  simp [randint, h]

/-- **C5** counterexample: with `search_window = 0` (`context_size = 1`,
`wp_length = 1`) a three-pose sequence has usable count `1 > 0`, yet the
request at the valid offset `0` finds an empty future window and raises the
request-time fatal error — the error branch is reachable from a valid
global-index entry. -/
theorem c5_counterexample :
    0 < usableCount 3 1 0 1
    ∧ get_input_and_future_poses demoPoses 0 1 0 = none := by decide

/-- Every parsed robot log has at least as many GPS fixes as poses (a GPS fix
is appended whenever a pose is, and sometimes without one), so the
`pose.length ≤ gps.length` hypothesis of the amended C5 below holds for every
sequence the robot loader retains. -/
theorem parseLoop_poses_le_gps (rad cosr : ℚ → ℚ) (pairs : List RecordPair)
    (ref : Option (ℚ × ℚ × ℚ)) :
    (parseLoopAux rad cosr pairs ref).2.length ≤ (parseLoopAux rad cosr pairs ref).1.length := by
  induction pairs generalizing ref with
  | nil => simp [parseLoopAux]
  | cons pr rest ih =>
    unfold parseLoopAux
    split
    · exact ih ref
    · split
      · simpa using Nat.le_succ_of_le (ih _)
      · simpa using ih _

/-- **C5** amended: the empty-future-window fatal error is raised iff the
future window is empty (`none` in the model by construction), and — provided
`search_window ≥ 1` — it is unreachable for any valid global-index entry
(`pose_start < usableCount`), in both the video source
(`get_input_and_future_poses` succeeds) and the robot source (the future GPS
window of a sequence whose GPS list is at least as long as its pose list —
which `parseLoop_poses_le_gps` shows is every parsed sequence — is
non-empty). -/
theorem c5_future_window_nonempty (pose : List Pose) (gps : List V3) (ps ctx sw wp : ℕ)
    (hsw : 1 ≤ sw) (hps : ps < usableCount pose.length ctx sw wp)
    (hlen : pose.length ≤ gps.length) :
    (get_input_and_future_poses pose ps ctx sw).isSome = true
    ∧ 0 < (urbannav_future_gps gps ps ctx sw).length := by
  unfold usableCount at hps
  constructor
  · have hlen2 : ((pose.drop (ps + ctx)).take
        (min (ps + ctx + sw) pose.length - (ps + ctx))).length ≠ 0 := by
      simp only [List.length_take, List.length_drop]
      omega
    unfold get_input_and_future_poses
    simp only []
    rw [if_neg hlen2]
    rfl
  · simp only [urbannav_future_gps, List.length_take, List.length_drop]
    omega

/-- Witness for `c5_future_window_nonempty` at a concrete input. -/
theorem c5_future_window_nonempty_witness :
    (get_input_and_future_poses demoPoses 0 1 1).isSome = true
    ∧ 0 < (urbannav_future_gps [(0, 0, 0), (0, 0, 0), (0, 0, 0)] 0 1 1).length :=
  c5_future_window_nonempty demoPoses [(0, 0, 0), (0, 0, 0), (0, 0, 0)] 0 1 1 1
    (by decide) (by decide) (by decide)

/-- **C7** counterexample: with `context_size = 1`, `search_window = 2`,
`wp_length = 2`, `arrived_threshold = 0`, a five-record robot log is retained
with usable count `2` and global-index entries `(0,0)`, `(0,1)`; the request
at the valid offset `0` has a future window of length `2` (`maxOffset = 1`),
and when the Bernoulli draw yields `arrived = true` the sampling range
`[wp_length, min(wp_length + arrived_threshold, maxOffset)] = [2, 1]` is
empty, so `random.randint` raises — the selection does *not* succeed for
every reachable request. -/
theorem c7_empty_range_failure :
    (urbannavLoad id id [demoPairs] 1 2 2).map Prod.snd = [2]
    ∧ (buildIndex ((urbannavLoad id id [demoPairs] 1 2 2).map Prod.snd)).1 = [(0, 0), (0, 1)]
    ∧ urbannav_getitem (urbannavParse id id demoPairs).1 0 1 2 2 0 true 0 = none := by
  decide

/-- **C7** amended: the robot-source target offset is drawn uniformly from
`[wp_length, min(wp_length + arrived_threshold, maxOffset)]` when the arrival
draw is `true` and from `[wp_length + arrived_threshold, maxOffset]` when it
is `false` (the draw lies in the range, and every value of the range is drawn
for some realization); the selection succeeds provided
`wp_length + arrived_threshold ≤ maxOffset = L - 1`. -/
theorem c7_robot_target_ranges (L wp thr : ℕ) (arrivedDraw : Bool) (c : ℕ)
    (h : wp + thr + 1 ≤ L) :
    (∃ t : ℤ, select_target_index L wp thr arrivedDraw c = some (t, arrivedDraw)
       ∧ (arrivedDraw = true → (wp : ℤ) ≤ t ∧ t ≤ min ((wp : ℤ) + (thr : ℤ)) ((L : ℤ) - 1))
       ∧ (arrivedDraw = false → (wp : ℤ) + (thr : ℤ) ≤ t ∧ t ≤ (L : ℤ) - 1))
    ∧ (∀ v : ℤ, (wp : ℤ) ≤ v → v ≤ min ((wp : ℤ) + (thr : ℤ)) ((L : ℤ) - 1) →
        ∃ c2, select_target_index L wp thr true c2 = some (v, true))
    ∧ (∀ v : ℤ, (wp : ℤ) + (thr : ℤ) ≤ v → v ≤ (L : ℤ) - 1 →
        ∃ c2, select_target_index L wp thr false c2 = some (v, false)) := by
  have hthr : (0 : ℤ) ≤ (thr : ℤ) := Int.natCast_nonneg _
  refine ⟨?_, ?_, ?_⟩
  · cases arrivedDraw with
    | true =>
      have hle : (wp : ℤ) ≤ min ((wp : ℤ) + (thr : ℤ)) ((L : ℤ) - 1) := by omega
      obtain ⟨v, hv⟩ := Option.isSome_iff_exists.mp (randint_isSome _ _ c hle)
      obtain ⟨hb1, hb2⟩ := randint_bounds hv
      exact ⟨v, by simp [select_target_index, hv], fun _ => ⟨hb1, hb2⟩, by simp⟩
    | false =>
      have hle : (wp : ℤ) + (thr : ℤ) ≤ (L : ℤ) - 1 := by omega
      obtain ⟨v, hv⟩ := Option.isSome_iff_exists.mp (randint_isSome _ _ c hle)
      obtain ⟨hb1, hb2⟩ := randint_bounds hv
      exact ⟨v, by simp [select_target_index, hv], by simp, fun _ => ⟨hb1, hb2⟩⟩
  · intro v h1 h2
    refine ⟨(v - (wp : ℤ)).toNat, ?_⟩
    have hs := randint_surj (wp : ℤ) (min ((wp : ℤ) + (thr : ℤ)) ((L : ℤ) - 1)) v h1 h2
    unfold select_target_index
    rw [if_pos rfl, hs]
    rfl
  · intro v h1 h2
    refine ⟨(v - ((wp : ℤ) + (thr : ℤ))).toNat, ?_⟩
    have hs := randint_surj ((wp : ℤ) + (thr : ℤ)) ((L : ℤ) - 1) v h1 h2
    unfold select_target_index
    rw [if_neg (by decide : ¬(false = true)), hs]
    rfl

/-- Witness for `c7_robot_target_ranges` at a concrete input. -/
theorem c7_robot_target_ranges_witness :
    (∃ t : ℤ, select_target_index 4 1 1 true 0 = some (t, true)
       ∧ (true = true → (1 : ℤ) ≤ t ∧ t ≤ min ((1 : ℤ) + (1 : ℤ)) ((4 : ℤ) - 1))
       ∧ (true = false → (1 : ℤ) + (1 : ℤ) ≤ t ∧ t ≤ (4 : ℤ) - 1))
    ∧ (∀ v : ℤ, (1 : ℤ) ≤ v → v ≤ min ((1 : ℤ) + (1 : ℤ)) ((4 : ℤ) - 1) →
        ∃ c2, select_target_index 4 1 1 true c2 = some (v, true))
    ∧ (∀ v : ℤ, (1 : ℤ) + (1 : ℤ) ≤ v → v ≤ (4 : ℤ) - 1 →
        ∃ c2, select_target_index 4 1 1 false c2 = some (v, false)) :=
  c7_robot_target_ranges 4 1 1 true 0 (by decide)

/-- **C8**: frame-index slot `k` maps to `(pose_start + k) * frame_multiplier`
before clamping, and for a video with `num_frames ≥ 1` frames every clamped
frame index lies within `[0, num_frames - 1]`. -/
theorem c8_frame_index_clamping (ps ctx video_fps target_fps nf : ℕ) (h : 1 ≤ nf) :
    frame_indices ps ctx (video_fps / target_fps)
      = (List.range ctx).map (fun k => (ps + k) * (video_fps / target_fps))
    ∧ ∀ i ∈ clamped_frame_indices ps ctx (video_fps / target_fps) nf,
        (0 : ℤ) ≤ (i : ℤ) ∧ (i : ℤ) ≤ (nf : ℤ) - 1 := by
  constructor
  · simp [frame_indices, Nat.add_mul]
  · intro i hi
    simp only [clamped_frame_indices, frame_indices, List.map_map, List.mem_map,
      List.mem_range, Function.comp_apply] at hi
    obtain ⟨k, _, rfl⟩ := hi
    refine ⟨Int.natCast_nonneg _, ?_⟩
    have hmin : min (ps * (video_fps / target_fps) + k * (video_fps / target_fps)) (nf - 1)
        ≤ nf - 1 := min_le_right _ _
    omega

/-- Witness for `c8_frame_index_clamping` at a concrete input. -/
theorem c8_frame_index_clamping_witness :
    frame_indices 2 2 (30 / 10) = (List.range 2).map (fun k => (2 + k) * (30 / 10))
    ∧ ∀ i ∈ clamped_frame_indices 2 2 (30 / 10) 4,
        (0 : ℤ) ≤ (i : ℤ) ∧ (i : ℤ) ≤ (4 : ℤ) - 1 :=
  c8_frame_index_clamping 2 2 30 10 4 (by decide)

/-- **C9** (code bug): the claimed invariant — the retained GPS list and pose
list of a robot sequence stay parallel, with entries at equal indices coming
from the same record pair — fails: when a well-formed GPS line is paired with
a malformed pose line (fewer than 11 fields), the loop appends the GPS fix and
then `continue`s past the pose append, desynchronizing the lists.  On
`desyncPairs` the parsed GPS list has two entries but the pose list only
one. -/
theorem c9_gps_pose_desync :
    (urbannavParse id id desyncPairs).1.length = 2
    ∧ (urbannavParse id id desyncPairs).2.length = 1 := by decide

/-! ## Sampler lemmas -/

theorem flatMap_enumFrom_snd {α β : Type} (f : α → List β) (l : List α) :
    ∀ n : ℕ, (l.enumFrom n).flatMap (fun p => f p.2) = l.flatMap f := by
  induction l with
  | nil => intro n; rfl
  | cons a rest ih =>
    intro n
    simp only [List.enumFrom_cons, List.flatMap_cons, ih (n + 1)]

theorem ranges_flatMap_rangeList (counts : List ℕ) (s0 a0 : ℕ) :
    ((buildIndexAux counts s0 a0).2).flatMap rangeList = List.range' a0 counts.sum := by
  induction counts generalizing s0 a0 with
  | nil => rfl
  | cons c rest ih =>
    simp only [buildIndexAux, List.flatMap_cons, ih (s0 + 1) (a0 + c), List.sum_cons]
    have h1 : rangeList (a0, a0 + c) = List.range' a0 c := by
      unfold rangeList
      congr 1
      omega
    rw [h1]
    have h2 := List.range'_append a0 c rest.sum 1
    rw [one_mul] at h2
    rw [h2, Nat.add_comm]

/-- **C10**: for any per-sequence ranges built by the index construction, the
iteration policy in non-training mode yields the global ids in ascending flat
order `0, 1, …, N-1`; in training mode — for any realization of the
per-sequence shuffles — the yielded ids decompose into per-sequence blocks in
sequence order (every id of sequence `i` before any id of sequence `i+1`),
the `i`-th block a permutation of the contiguous range
`[c₀+…+cᵢ₋₁, c₀+…+cᵢ)` owned by sequence `i`. -/
theorem c10_iteration_order (counts : List ℕ) (shuffle : ℕ → List ℕ → List ℕ)
    (hshuf : ∀ i l, (shuffle i l).Perm l) :
    create_indices (buildIndex counts).2 false shuffle = List.range counts.sum
    ∧ (∃ blocks : List (List ℕ),
        create_indices (buildIndex counts).2 true shuffle = blocks.flatten
        ∧ blocks.length = counts.length
        ∧ ∀ i : ℕ, i < counts.length →
            (blocks.getD i []).Perm
              (List.range' ((counts.take i).sum) (counts.getD i 0))) := by
  have hrlen : (buildIndex counts).2.length = counts.length := by
    rw [buildIndex, buildIndexAux_ranges]
    simp
  constructor
  · unfold create_indices
    simp only [Bool.false_eq_true, if_false]
    rw [show (buildIndex counts).2.enum = (buildIndex counts).2.enumFrom 0 from rfl]
    rw [flatMap_enumFrom_snd rangeList]
    rw [show (buildIndex counts).2 = (buildIndexAux counts 0 0).2 from rfl]
    rw [ranges_flatMap_rangeList counts 0 0, List.range_eq_range']
  · refine ⟨(buildIndex counts).2.enum.map (fun p => shuffle p.1 (rangeList p.2)), ?_, ?_, ?_⟩
    · unfold create_indices
      simp only [if_pos rfl, if_true]
      exact List.flatMap_def _ _
    · simp [List.enum_length, hrlen]
    · intro i hi
      have hblen : ((buildIndex counts).2.enum.map
          (fun p => shuffle p.1 (rangeList p.2))).length = counts.length := by
        simp [List.enum_length, hrlen]
      rw [List.getD_eq_getElem _ _ (by rw [hblen]; exact hi)]
      simp only [List.getElem_map, List.getElem_enum, buildIndex, buildIndexAux_ranges,
        Nat.zero_add, List.getElem_range]
      refine (hshuf i _).trans ?_
      have heq : rangeList ((counts.take i).sum, (counts.take (i + 1)).sum)
          = List.range' ((counts.take i).sum) (counts.getD i 0) := by
        unfold rangeList
        congr 1
        rw [List.getD_eq_getElem counts 0 hi]
        have := List.sum_take_succ counts i hi
        omega
      rw [heq]

/-- Witness for `c6_uniform_target_deterministic_label` at a concrete input. -/
theorem c6_uniform_target_deterministic_label_witness :
    c6sample.target_idx < c6sample.future_len
    ∧ (∀ i : ℕ, i < c6sample.future_len →
        ∃ c2, citywalkTargetIdx c6sample.future_len c2 = some (i : ℤ))
    ∧ c6sample.arrived
        = determine_arrived_label (posOf c6sample.last_input0) (posOf c6sample.target) 0
    ∧ (c6sample.arrived = true
        ↔ Real.sqrt ((sqDist (posOf c6sample.last_input0) (posOf c6sample.target) : ℚ) : ℝ)
            ≤ ((0 : ℚ) : ℝ))
    ∧ (∀ ifp : List Pose × List Pose, get_input_and_future_poses demoPoses 0 2 1 = some ifp →
        ifp.1.getLast? = some c6sample.last_input0
        ∧ ifp.2.get? c6sample.target_idx = some c6sample.target
        ∧ c6sample.future_len = ifp.2.length) :=
  c6_uniform_target_deterministic_label demoPoses 0 2 1 1 0 1 0 demoNoise c6sample
    (opt_eq_some_iget _ (by decide))

/-- Witness for `c10_iteration_order` at a concrete input (two sequences with
counts 2 and 3, identity shuffle realization). -/
theorem c10_iteration_order_witness :
    create_indices (buildIndex [2, 3]).2 false (fun _ l => l)
      = List.range ([2, 3] : List ℕ).sum
    ∧ (∃ blocks : List (List ℕ),
        create_indices (buildIndex [2, 3]).2 true (fun _ l => l) = blocks.flatten
        ∧ blocks.length = ([2, 3] : List ℕ).length
        ∧ ∀ i : ℕ, i < ([2, 3] : List ℕ).length →
            (blocks.getD i []).Perm
              (List.range' ((([2, 3] : List ℕ).take i).sum) (([2, 3] : List ℕ).getD i 0))) :=
  c10_iteration_order [2, 3] (fun _ l => l) (fun _ l => List.Perm.refl l)
